import Mathlib

/-!
Verification of the D3buGr gateway (`src/server.py`): service registry,
forwarder (`call_service`), health aggregation (`status`), documentation
endpoints, and the optional access gate.

The embedding models the HTTP client (`requests`) as an oracle function
`net : OutboundRequest → UpstreamOutcome`: each handler passes the oracle the
outbound request it builds (URL, method, forwarded parameters or JSON body,
timeout budget) and receives either a completed upstream response or one of
the transport failures the source distinguishes (`requests.Timeout`,
`requests.ConnectionError`, any other exception).  Handlers return the pair of
the HTTP response produced and the list of outbound requests issued, so that
"exactly one outbound call" and "no outbound call" are provable facts.
-/

namespace Gateway

/-- JSON values, as produced by Python's JSON parsing (numbers as integers
suffice here: every number in the program's data is a string or absent). -/
inductive Json where
  | null : Json
  | bool : Bool → Json
  | num : Int → Json
  | str : String → Json
  | arr : List Json → Json
  | obj : List (String × Json) → Json

/-- Python truthiness of a parsed JSON value, as used by `request.json or {}`:
`None`, `False`, `0`, `""`, `[]` and `{}` are falsy. -/
def pyTruthy : Json → Bool
  | .null => false
  | .bool b => b
  | .num n => n != 0
  | .str s => !s.isEmpty
  | .arr xs => !xs.isEmpty
  | .obj fs => !fs.isEmpty

/-- The service registry `SERVICES` of `server.py`: name → base URL, in
source order. -/
def SERVICES : List (String × String) :=
  [("nmap", "https://nmap-production.up.railway.app"),
   ("argus-recon", "https://argus-recon-production.up.railway.app"),
   ("dns-tools", "https://dns-tools-api-production.up.railway.app"),
   ("theharvester", "https://theharvester-production.up.railway.app"),
   ("nuclei", "https://nuclei-production-d931.up.railway.app"),
   ("sqlmap", "https://sqlmap-api-production.up.railway.app"),
   ("bhp", "https://bhp-api-production.up.railway.app"),
   ("shodan", "https://divine-trust-production.up.railway.app")]

/-- The HTTP methods the gateway route accepts (`methods=['GET', 'POST']`). -/
inductive Method where
  | get : Method
  | post : Method
deriving DecidableEq

/-- A completed upstream HTTP response: status code, raw body text, and the
result of attempting to parse the body as JSON (`resp.json()` succeeding is
`some`, raising is `none`). -/
structure UpstreamResponse where
  status_code : Nat
  text : String
  json : Option Json

/-- Outcome of one outbound HTTP attempt: a completed response, or one of the
transport failures `server.py` distinguishes. -/
inductive UpstreamOutcome where
  | ok : UpstreamResponse → UpstreamOutcome
  | timeout : UpstreamOutcome
  | connectionError : UpstreamOutcome
  | exception : String → UpstreamOutcome

/-- An outbound HTTP request as built by the gateway: method, target URL,
query parameters (`params=` for GET), JSON payload (`json=` for POST), and
the timeout budget in seconds. -/
structure OutboundRequest where
  method : Method
  url : String
  params : List (String × String)
  body : Option Json
  timeout : Nat

/-- A response body: `jsonify`d JSON, or raw text. -/
inductive Body where
  | json : Json → Body
  | text : String → Body

/-- An HTTP response the gateway returns: status code and body. -/
structure GatewayResponse where
  status : Nat
  body : Body

/-- The structured JSON error body `jsonify({'error': e, 'service': s,
'endpoint': p})` used by the transport-failure branches of `call_service`. -/
def errBody (e service endpoint : String) : Body :=
  .json (.obj [("error", .str e), ("service", .str service),
               ("endpoint", .str endpoint)])

/-- `call_service` of `server.py` (route `/call/<service>/<path:endpoint>`).
`args` is `request.args` (inbound query parameters), `reqJson` is
`request.json` (`none` when no JSON body is present).  Returns the gateway's
response together with the list of outbound requests issued. -/
def call_service (net : OutboundRequest → UpstreamOutcome)
    (service endpoint : String) (method : Method)
    (args : List (String × String)) (reqJson : Option Json) :
    GatewayResponse × List OutboundRequest :=
  match SERVICES.lookup service with
  | none =>
      (⟨404, .json (.obj
        [("error", .str ("Service " ++ service ++ " not found")),
         ("available", .arr (SERVICES.map (fun p => Json.str p.1)))])⟩, [])
  | some base_url =>
      let target_url := base_url ++ "/" ++ endpoint
      let req : OutboundRequest :=
        match method with
        | .post =>
            let data : Json :=
              match reqJson with
              | some j => if pyTruthy j then j else .obj []
              | none => .obj []
            ⟨.post, target_url, [], some data, 600⟩
        | .get => ⟨.get, target_url, args, none, 60⟩
      let response : GatewayResponse :=
        match net req with
        | .ok resp =>
            ⟨resp.status_code,
              match resp.json with
              | some j => .json j
              | none => .text resp.text⟩
        | .timeout => ⟨504, errBody "Service timeout" service endpoint⟩
        | .connectionError => ⟨503, errBody "Service unavailable" service endpoint⟩
        | .exception msg => ⟨500, errBody msg service endpoint⟩
      (response, [req])

/-- One entry of the `/status` snapshot: `{"status": ..., "url": ...}`. -/
structure StatusEntry where
  status : String
  url : String
deriving DecidableEq

/-- The health probe request `requests.get(f"{url}/health", timeout=5)`. -/
def probeRequest (url : String) : OutboundRequest :=
  ⟨.get, url ++ "/health", [], none, 5⟩

/-- The loop body of `status` for one registry entry `p = (name, url)`:
probe `{url}/health`; HTTP 200 → online, any other status → error, any
exception (the bare `except:`) → offline. -/
def classify (net : OutboundRequest → UpstreamOutcome)
    (p : String × String) : StatusEntry :=
  match net (probeRequest p.2) with
  | .ok resp => ⟨if resp.status_code = 200 then "online" else "error", p.2⟩
  | _ => ⟨"offline", p.2⟩

/-- `status` of `server.py` (route `/status`): for each registry entry in
order, probe its health path with a 5-second budget and record the
classification. -/
def status (net : OutboundRequest → UpstreamOutcome) : List (String × StatusEntry) :=
  SERVICES.map fun p => (p.1, classify net p)

/-- Timing model of the sequential `for name, url in SERVICES.items()` loop
in `status`: a probe whose upstream takes `latency` seconds occupies the loop
for `min latency 5` seconds (the 5-second budget caps a hung probe), and the
loop runs the probes one after another, so the snapshot's total wall-clock
time is the sum over all registry entries. -/
def status_total_time (latency : String → Nat) : Nat :=
  (SERVICES.map (fun p => min (latency p.1) 5)).sum

/-- `SERVICES[name]` as used inside `DOCS` (every name referenced is a
registry key, so the default is never reached). -/
def serviceUrl (name : String) : String :=
  (SERVICES.lookup name).getD ""

/-- The `nmap` entry of `DOCS["services"]`. -/
def nmapDoc : Json := .obj
  [("url", .str (serviceUrl "nmap")),
   ("description", .str "Port scanning and service detection"),
   ("endpoints", .arr
     [.obj [("path", .str "/scan"), ("method", .str "POST"),
            ("params", .obj [("target", .str "required"), ("args", .str "optional")])],
      .obj [("path", .str "/quick"), ("method", .str "POST"),
            ("params", .obj [("target", .str "required")])],
      .obj [("path", .str "/version"), ("method", .str "GET")],
      .obj [("path", .str "/health"), ("method", .str "GET")]]),
   ("examples", .arr
     [.obj [("desc", .str "Full scan"), ("call", .str "/call/nmap/scan"),
            ("body", .obj [("target", .str "example.com"), ("args", .str "-sV -p22,80,443")])],
      .obj [("desc", .str "Quick scan"), ("call", .str "/call/nmap/quick"),
            ("body", .obj [("target", .str "example.com")])]])]

/-- The `nuclei` entry of `DOCS["services"]`. -/
def nucleiDoc : Json := .obj
  [("url", .str (serviceUrl "nuclei")),
   ("description", .str "Template-based vulnerability scanner"),
   ("endpoints", .arr
     [.obj [("path", .str "/scan"), ("method", .str "POST"),
            ("params", .obj [("target", .str "required"), ("templates", .str "optional"),
                             ("severity", .str "optional")])],
      .obj [("path", .str "/quick"), ("method", .str "POST"),
            ("params", .obj [("target", .str "required")])],
      .obj [("path", .str "/cves"), ("method", .str "POST"),
            ("params", .obj [("target", .str "required"), ("year", .str "optional")])],
      .obj [("path", .str "/tech"), ("method", .str "POST"),
            ("params", .obj [("target", .str "required")])],
      .obj [("path", .str "/templates"), ("method", .str "GET")],
      .obj [("path", .str "/health"), ("method", .str "GET")]]),
   ("examples", .arr
     [.obj [("desc", .str "Quick vuln scan"), ("call", .str "/call/nuclei/quick"),
            ("body", .obj [("target", .str "https://example.com")])],
      .obj [("desc", .str "CVE scan"), ("call", .str "/call/nuclei/cves"),
            ("body", .obj [("target", .str "https://example.com"), ("year", .str "2024")])]])]

/-- The `sqlmap` entry of `DOCS["services"]`. -/
def sqlmapDoc : Json := .obj
  [("url", .str (serviceUrl "sqlmap")),
   ("description", .str "SQL injection testing"),
   ("endpoints", .arr
     [.obj [("path", .str "/scan"), ("method", .str "POST"),
            ("params", .obj [("url", .str "required"), ("level", .str "optional"),
                             ("risk", .str "optional")])],
      .obj [("path", .str "/quick"), ("method", .str "POST"),
            ("params", .obj [("url", .str "required")])],
      .obj [("path", .str "/status/{task_id}"), ("method", .str "GET")],
      .obj [("path", .str "/result/{task_id}"), ("method", .str "GET")],
      .obj [("path", .str "/health"), ("method", .str "GET")]]),
   ("examples", .arr
     [.obj [("desc", .str "SQLi test"), ("call", .str "/call/sqlmap/quick"),
            ("body", .obj [("url", .str "https://example.com/page?id=1")])]])]

/-- The `bhp` entry of `DOCS["services"]`. -/
def bhpDoc : Json := .obj
  [("url", .str (serviceUrl "bhp")),
   ("description", .str "XSS, SSRF, IDOR, encoding, payloads"),
   ("endpoints", .arr
     [.obj [("path", .str "/sqli/scan"), ("method", .str "POST"),
            ("params", .obj [("url", .str "required")])],
      .obj [("path", .str "/ssrf/scan"), ("method", .str "POST"),
            ("params", .obj [("url", .str "required"), ("callback", .str "optional")])],
      .obj [("path", .str "/takeover"), ("method", .str "POST"),
            ("params", .obj [("domain", .str "required")])],
      .obj [("path", .str "/dirbust"), ("method", .str "POST"),
            ("params", .obj [("url", .str "required")])],
      .obj [("path", .str "/idor"), ("method", .str "POST"),
            ("params", .obj [("url", .str "required")])],
      .obj [("path", .str "/payload/shell"), ("method", .str "POST"),
            ("params", .obj [("ip", .str "required"), ("port", .str "required"),
                             ("type", .str "optional")])],
      .obj [("path", .str "/payload/xss"), ("method", .str "POST"),
            ("params", .obj [("type", .str "optional")])],
      .obj [("path", .str "/encode"), ("method", .str "POST"),
            ("params", .obj [("data", .str "required"), ("type", .str "optional")])],
      .obj [("path", .str "/decode"), ("method", .str "POST"),
            ("params", .obj [("data", .str "required"), ("type", .str "optional")])],
      .obj [("path", .str "/health"), ("method", .str "GET")]])]

/-- The `dns-tools` entry of `DOCS["services"]`. -/
def dnsToolsDoc : Json := .obj
  [("url", .str (serviceUrl "dns-tools")),
   ("description", .str "DNS enumeration and zone transfers"),
   ("endpoints", .arr
     [.obj [("path", .str "/lookup"), ("method", .str "POST"),
            ("params", .obj [("domain", .str "required"), ("types", .str "optional")])],
      .obj [("path", .str "/zone-transfer"), ("method", .str "POST"),
            ("params", .obj [("domain", .str "required")])],
      .obj [("path", .str "/reverse"), ("method", .str "POST"),
            ("params", .obj [("ip", .str "required")])],
      .obj [("path", .str "/mx"), ("method", .str "POST"),
            ("params", .obj [("domain", .str "required")])],
      .obj [("path", .str "/dnssec"), ("method", .str "POST"),
            ("params", .obj [("domain", .str "required")])],
      .obj [("path", .str "/health"), ("method", .str "GET")]])]

/-- The `theharvester` entry of `DOCS["services"]`. -/
def theharvesterDoc : Json := .obj
  [("url", .str (serviceUrl "theharvester")),
   ("description", .str "Email and subdomain harvesting"),
   ("endpoints", .arr
     [.obj [("path", .str "/harvest"), ("method", .str "POST"),
            ("params", .obj [("domain", .str "required"), ("source", .str "optional"),
                             ("limit", .str "optional")])],
      .obj [("path", .str "/emails"), ("method", .str "POST"),
            ("params", .obj [("domain", .str "required")])],
      .obj [("path", .str "/subdomains"), ("method", .str "POST"),
            ("params", .obj [("domain", .str "required")])],
      .obj [("path", .str "/sources"), ("method", .str "GET")],
      .obj [("path", .str "/health"), ("method", .str "GET")]])]

/-- The `argus-recon` entry of `DOCS["services"]`. -/
def argusReconDoc : Json := .obj
  [("url", .str (serviceUrl "argus-recon")),
   ("description", .str "Asset discovery and enumeration"),
   ("endpoints", .arr
     [.obj [("path", .str "/recon"), ("method", .str "POST"),
            ("params", .obj [("target", .str "required"), ("depth", .str "optional")])],
      .obj [("path", .str "/subdomains"), ("method", .str "POST"),
            ("params", .obj [("target", .str "required")])],
      .obj [("path", .str "/ports"), ("method", .str "POST"),
            ("params", .obj [("target", .str "required")])],
      .obj [("path", .str "/health"), ("method", .str "GET")]])]

/-- The `shodan` entry of `DOCS["services"]`. -/
def shodanDoc : Json := .obj
  [("url", .str (serviceUrl "shodan")),
   ("description", .str "Shodan + CVE database"),
   ("endpoints", .arr
     [.obj [("path", .str "/shodan/host/{ip}"), ("method", .str "GET")],
      .obj [("path", .str "/shodan/search"), ("method", .str "POST"),
            ("params", .obj [("query", .str "required")])],
      .obj [("path", .str "/shodan/dns"), ("method", .str "POST"),
            ("params", .obj [("domain", .str "required")])],
      .obj [("path", .str "/shodan/honeypot/{ip}"), ("method", .str "GET")],
      .obj [("path", .str "/cve/{cve_id}"), ("method", .str "GET")],
      .obj [("path", .str "/cve/search"), ("method", .str "POST"),
            ("params", .obj [("product", .str "optional")])],
      .obj [("path", .str "/cve/recent"), ("method", .str "GET")],
      .obj [("path", .str "/cve/kev"), ("method", .str "GET")],
      .obj [("path", .str "/health"), ("method", .str "GET")]])]

/-- `DOCS["services"]`: the documented service descriptors, in source order
(which differs from the registry's insertion order). -/
def DOCS_services : List (String × Json) :=
  [("nmap", nmapDoc), ("nuclei", nucleiDoc), ("sqlmap", sqlmapDoc),
   ("bhp", bhpDoc), ("dns-tools", dnsToolsDoc), ("theharvester", theharvesterDoc),
   ("argus-recon", argusReconDoc), ("shodan", shodanDoc)]

/-- The full documentation object `DOCS` of `server.py`. -/
def DOCS : Json := .obj
  [("meta", .obj
     [("name", .str "Railway D3buGr API Gateway"),
      ("description", .str "Unified API to call all bug bounty tools"),
      ("version", .str "1.0.0"),
      ("gateway_endpoint", .str "/call/{service}/{endpoint}")]),
   ("context", .obj
     [("what", .str "Cloud-based bug bounty hunting toolkit deployed on Railway. Security scanning, reconnaissance, and exploitation tools as HTTP APIs."),
      ("why", .arr
        [.str "Offload heavy scans - nmap, nuclei, sqlmap run on Railway servers",
         .str "Avoid detection - Scans originate from Railway IPs",
         .str "Parallel execution - Multiple scans simultaneously",
         .str "Persistence - Services run 24/7",
         .str "MCP Integration - Tools exposed via MCP for Claude Code / AI agents"]),
      ("when", .arr
        [.str "Bug bounty hunting - Authorized security testing",
         .str "Penetration testing - With written permission",
         .str "CTF competitions - Capture the flag challenges",
         .str "Security research - Vulnerability research on owned systems"]),
      ("workflow", .arr
        [.str "1. RECON: theharvester, dns-tools, argus-recon, nmap",
         .str "2. SCANNING: nuclei, sqlmap, bhp",
         .str "3. EXPLOITATION: D3buGr (MCP only)",
         .str "4. INTELLIGENCE: shodan"])]),
   ("services", .obj DOCS_services),
   ("mcp_integration", .obj
     [("prefix", .str "mcp__d3bugr__"),
      ("examples", .arr
        [.str "mcp__d3bugr__nmap_scan(target, args)",
         .str "mcp__d3bugr__nuclei_quick(target)",
         .str "mcp__d3bugr__sqlmap_test(url)",
         .str "mcp__d3bugr__hunt_jwts()",
         .str "mcp__d3bugr__full_recon()"])])]

/-- `index` of `server.py` (route `/`): `return jsonify(DOCS)`. -/
def index : GatewayResponse := ⟨200, .json DOCS⟩

/-- `docs` of `server.py` (route `/docs`): `return jsonify(DOCS)`. -/
def docs : GatewayResponse := ⟨200, .json DOCS⟩

/-- `service_detail` of `server.py` (route `/services/<service>`): the
descriptor when the name is documented, otherwise 404 with the available
names. -/
def service_detail (service : String) : GatewayResponse :=
  match DOCS_services.lookup service with
  | some doc => ⟨200, .json doc⟩
  | none =>
      ⟨404, .json (.obj
        [("error", .str ("Service " ++ service ++ " not found")),
         ("available", .arr (DOCS_services.map (fun p => Json.str p.1)))])⟩

/-- Modelled from the spec: the Access Gate is described in the spec
(sections 4.4 and 7) as an external collaborator and has no code in
`src/server.py`.  Decision of the shared-secret check. -/
inductive AuthDecision where
  | allow : AuthDecision
  | rejectMissing : AuthDecision
  | rejectInvalid : AuthDecision
deriving DecidableEq

/-- Modelled from the spec: `authorize(providedKey)` — no configured secret
allows everything; with a secret, a missing key is rejected as missing, a
mismatching key as invalid, an exact match is allowed. -/
def authorize (secret provided : Option String) : AuthDecision :=
  match secret with
  | none => .allow
  | some s =>
      match provided with
      | none => .rejectMissing
      | some k => if k = s then .allow else .rejectInvalid

/-- Modelled from the spec: the operations of the HTTP surface; the gate
applies to every gateway and documentation operation except the liveness
check. -/
inductive Operation where
  | indexOp : Operation
  | docsOp : Operation
  | contextOp : Operation
  | listServicesOp : Operation
  | serviceDetailOp : Operation
  | mcpOp : Operation
  | workflowOp : Operation
  | callOp : Operation
  | statusOp : Operation
  | livenessOp : Operation
deriving DecidableEq

/-- Modelled from the spec: the liveness check is always unauthenticated. -/
def isLiveness : Operation → Bool
  | .livenessOp => true
  | _ => false

/-- Modelled from the spec: the gate applied to an operation — `none` means
the request proceeds, `some c` means it is rejected with HTTP status `c`
(401 for a missing key, 403 for an invalid one). -/
def gate (secret provided : Option String) (op : Operation) : Option Nat :=
  if isLiveness op then none
  else
    match authorize secret provided with
    | .allow => none
    | .rejectMissing => some 401
    | .rejectInvalid => some 403

/-! ## Association-list helper lemmas -/

theorem lookup_eq_none_of_not_mem_keys {β : Type} :
    ∀ (l : List (String × β)) (a : String), a ∉ l.map Prod.fst → l.lookup a = none
  | [], _, _ => rfl
  | (k, b) :: t, a, h => by
    simp only [List.map_cons, List.mem_cons, not_or] at h
    have hk : (a == k) = false := beq_eq_false_iff_ne.mpr h.1
    simp [List.lookup, hk, lookup_eq_none_of_not_mem_keys t a h.2]

theorem lookup_isSome_of_mem_keys {β : Type} :
    ∀ (l : List (String × β)) (a : String), a ∈ l.map Prod.fst →
      ∃ b, l.lookup a = some b
  | [], a, h => by simp at h
  | (k, b) :: t, a, h => by
    by_cases hk : a = k
    · exact ⟨b, by simp [List.lookup, hk]⟩
    · have : a ∈ t.map Prod.fst := by
        simpa [hk] using h
      obtain ⟨c, hc⟩ := lookup_isSome_of_mem_keys t a this
      exact ⟨c, by simp [List.lookup, beq_eq_false_iff_ne.mpr hk, hc]⟩

theorem lookup_map_entry {β γ : Type} (f : String × β → γ) :
    ∀ (l : List (String × β)) (name : String) (b : β),
      (name, b) ∈ l → (l.map Prod.fst).Nodup →
      (l.map (fun p => (p.1, f p))).lookup name = some (f (name, b))
  | [], name, b, hmem, _ => by simp at hmem
  | (k, v) :: t, name, b, hmem, hnd => by
    simp only [List.map_cons, List.nodup_cons] at hnd
    rcases List.mem_cons.mp hmem with heq | htail
    · obtain ⟨h1, h2⟩ := Prod.mk.injEq .. ▸ heq
      subst h1; subst h2
      simp [List.lookup]
    · have hne : name ≠ k := by
        intro h
        subst h
        exact hnd.1 (List.mem_map.mpr ⟨(name, b), htail, rfl⟩)
      simp [List.lookup, beq_eq_false_iff_ne.mpr hne,
        lookup_map_entry f t name b htail hnd.2]

/-! ## Claim theorems -/

/-- C10: `GET /` and `GET /docs` return identical responses: both serialize
the same full documentation object `DOCS`, so the two endpoints' bodies are
equal. -/
theorem index_and_docs_identical :
    index = docs ∧ index.body = Body.json DOCS ∧ docs.body = Body.json DOCS :=
  ⟨rfl, rfl, rfl⟩

/-- C4: a forward call whose service name is not in the registry performs no
outbound call and returns HTTP 404 with a body listing all registered service
names. -/
theorem unknown_service_call_404 (net : OutboundRequest → UpstreamOutcome)
    (service endpoint : String) (method : Method)
    (args : List (String × String)) (reqJson : Option Json)
    (h : service ∉ SERVICES.map Prod.fst) :
    call_service net service endpoint method args reqJson =
      (⟨404, .json (.obj
        [("error", .str ("Service " ++ service ++ " not found")),
         ("available", .arr (SERVICES.map (fun p => Json.str p.1)))])⟩, []) := by
  unfold call_service
  rw [lookup_eq_none_of_not_mem_keys _ _ h]

/-- Witness for C4: the unregistered name "masscan" yields 404 with the
registry names and no outbound request. -/
theorem unknown_service_call_404_witness :
    "masscan" ∉ SERVICES.map Prod.fst ∧
    call_service (fun _ => .timeout) "masscan" "scan" .get [] none =
      (⟨404, .json (.obj
        [("error", .str "Service masscan not found"),
         ("available", .arr (SERVICES.map (fun p => Json.str p.1)))])⟩, []) :=
  ⟨by decide,
   unknown_service_call_404 (fun _ => .timeout) "masscan" "scan" .get [] none
     (by decide)⟩

/-- C1: on a registered service, a transport failure with no response is
classified: a timeout yields HTTP 504 ("Service timeout"), a connection
failure yields HTTP 503 ("Service unavailable"), any other exception yields
HTTP 500 with the underlying error text; in all three cases the body carries
the service name and sub-path. -/
theorem transport_failure_classification
    (net : OutboundRequest → UpstreamOutcome) (service endpoint : String)
    (method : Method) (args : List (String × String)) (reqJson : Option Json)
    (base msg : String) (hs : SERVICES.lookup service = some base) :
    ((∀ r, net r = .timeout) →
      (call_service net service endpoint method args reqJson).1 =
        ⟨504, errBody "Service timeout" service endpoint⟩) ∧
    ((∀ r, net r = .connectionError) →
      (call_service net service endpoint method args reqJson).1 =
        ⟨503, errBody "Service unavailable" service endpoint⟩) ∧
    ((∀ r, net r = .exception msg) →
      (call_service net service endpoint method args reqJson).1 =
        ⟨500, errBody msg service endpoint⟩) := by
  refine ⟨fun h => ?_, fun h => ?_, fun h => ?_⟩ <;>
    simp only [call_service, hs, h]

/-- Witness for C1: a timed-out POST to the registered service "nmap"
returns 504 with service and endpoint in the body. -/
theorem transport_failure_classification_witness :
    SERVICES.lookup "nmap" = some "https://nmap-production.up.railway.app" ∧
    (call_service (fun _ => .timeout) "nmap" "scan" .post [] none).1 =
      ⟨504, errBody "Service timeout" "nmap" "scan"⟩ :=
  ⟨rfl,
   (transport_failure_classification (fun _ => .timeout) "nmap" "scan" .post []
     none "https://nmap-production.up.railway.app" "boom" rfl).1
     (fun _ => rfl)⟩

/-- C2: a completed upstream response is relayed with exactly the upstream's
status code; the body is the parsed JSON value when the upstream body parses
as JSON, otherwise the raw text. -/
theorem completed_response_relayed
    (net : OutboundRequest → UpstreamOutcome) (service endpoint : String)
    (method : Method) (args : List (String × String)) (reqJson : Option Json)
    (base : String) (hs : SERVICES.lookup service = some base)
    (resp : UpstreamResponse) (hnet : ∀ r, net r = .ok resp) :
    ((call_service net service endpoint method args reqJson).1.status =
      resp.status_code) ∧
    (∀ j, resp.json = some j →
      (call_service net service endpoint method args reqJson).1.body = .json j) ∧
    (resp.json = none →
      (call_service net service endpoint method args reqJson).1.body =
        .text resp.text) := by
  refine ⟨?_, fun j hj => ?_, fun hj => ?_⟩
  · simp only [call_service, hs, hnet]
  · simp only [call_service, hs, hnet, hj]
  · simp only [call_service, hs, hnet, hj]

/-- Witness for C2: an upstream 418 response with non-JSON body "teapot" is
relayed as 418 with raw text "teapot". -/
theorem completed_response_relayed_witness :
    SERVICES.lookup "shodan" = some "https://divine-trust-production.up.railway.app" ∧
    (call_service (fun _ => .ok ⟨418, "teapot", none⟩) "shodan" "cve/recent"
        .get [] none).1.status = 418 ∧
    (call_service (fun _ => .ok ⟨418, "teapot", none⟩) "shodan" "cve/recent"
        .get [] none).1.body = .text "teapot" := by
  have h := completed_response_relayed
    (fun _ => .ok ⟨418, "teapot", none⟩) "shodan" "cve/recent" .get [] none
    "https://divine-trust-production.up.railway.app" rfl
    ⟨418, "teapot", none⟩ (fun _ => rfl)
  exact ⟨rfl, h.1, h.2.2 rfl⟩

/-- C3 counterexample: the claim "a POST carries the inbound JSON body
unchanged" fails at the concrete inbound body `[]` on the registered service
"nmap": `data = request.json or ...` replaces every falsy parsed body (empty
array, empty string, 0, false, null) with the empty object, so the single
outbound request carries `\x7b\x7d`, not `[]`. -/
theorem post_falsy_body_counterexample :
    (call_service (fun _ => .timeout) "nmap" "scan" .post []
        (some (Json.arr []))).2 =
      [⟨.post, "https://nmap-production.up.railway.app/scan", [],
        some (Json.obj []), 600⟩] ∧
    Json.obj [] ≠ Json.arr [] :=
  ⟨rfl, fun h => Json.noConfusion h⟩

/-- C3 (amended): on a registered service, a GET issues exactly one outbound
GET carrying the inbound query parameters unchanged with a 60-second budget;
a POST issues exactly one outbound POST with a 600-second budget whose body
is the inbound JSON body when that body is present and truthy, and the empty
JSON object — never null — when the body is absent or falsy. -/
theorem outbound_request_shape
    (net : OutboundRequest → UpstreamOutcome) (service endpoint : String)
    (args : List (String × String)) (reqJson : Option Json) (base : String)
    (hs : SERVICES.lookup service = some base) :
    ((call_service net service endpoint .get args reqJson).2 =
      [⟨.get, base ++ "/" ++ endpoint, args, none, 60⟩]) ∧
    (∃ body, (call_service net service endpoint .post args reqJson).2 =
        [⟨.post, base ++ "/" ++ endpoint, [], some body, 600⟩] ∧
      (∀ j, reqJson = some j → pyTruthy j = true → body = j) ∧
      ((reqJson = none ∨ ∃ j, reqJson = some j ∧ pyTruthy j = false) →
        body = Json.obj []) ∧
      body ≠ Json.null) := by
  constructor
  · simp only [call_service, hs]
  · refine ⟨match reqJson with
      | some j => if pyTruthy j then j else .obj []
      | none => .obj [], ?_, ?_, ?_, ?_⟩
    · simp only [call_service, hs]
    · intro j hj htruthy
      simp [hj, htruthy]
    · rintro (hj | ⟨j, hj, hfalsy⟩)
      · simp [hj]
      · simp [hj, hfalsy]
    · match hr : reqJson with
      | none => exact fun h => Json.noConfusion h
      | some j =>
        by_cases hb : pyTruthy j
        · simp only [hb, if_true]
          intro h
          subst h
          simp [pyTruthy] at hb
        · simp only [hb, if_false]
          exact fun h => Json.noConfusion h

/-- Witness for C3 (amended): for the registered service "nuclei", a GET with
one query parameter issues exactly one outbound GET with that parameter and
timeout 60, and a POST with the truthy inbound body
`\x7b"target": "https://example.com"\x7d` forwards it unchanged with
timeout 600. -/
theorem outbound_request_shape_witness :
    SERVICES.lookup "nuclei" = some "https://nuclei-production-d931.up.railway.app" ∧
    (call_service (fun _ => .timeout) "nuclei" "quick" .get
        [("target", "example.com")]
        (some (Json.obj [("target", Json.str "https://example.com")]))).2 =
      [⟨.get, "https://nuclei-production-d931.up.railway.app/quick",
        [("target", "example.com")], none, 60⟩] ∧
    (call_service (fun _ => .timeout) "nuclei" "quick" .post
        [("target", "example.com")]
        (some (Json.obj [("target", Json.str "https://example.com")]))).2 =
      [⟨.post, "https://nuclei-production-d931.up.railway.app/quick", [],
        some (Json.obj [("target", Json.str "https://example.com")]), 600⟩] := by
  have h := outbound_request_shape (fun _ => .timeout) "nuclei" "quick"
    [("target", "example.com")]
    (some (Json.obj [("target", Json.str "https://example.com")]))
    "https://nuclei-production-d931.up.railway.app" rfl
  obtain ⟨hget, body, hpost, hbody, _, _⟩ := h
  rw [hbody (Json.obj [("target", Json.str "https://example.com")]) rfl rfl] at hpost
  exact ⟨rfl, hget, hpost⟩

/-- C6: for every oracle of per-service probe outcomes, the health snapshot
contains exactly one entry for each registry entry: its keys are exactly the
registry's keys, in order and without duplicates. -/
theorem snapshot_total (net : OutboundRequest → UpstreamOutcome) :
    (status net).map Prod.fst = SERVICES.map Prod.fst ∧
    ((status net).map Prod.fst).Nodup := by
  have h : (status net).map Prod.fst = SERVICES.map Prod.fst := rfl
  rw [h]
  exact ⟨rfl, by decide⟩

/-- C7: the claim requires concurrent probes with total wall-clock time
bounded by the slowest single probe (at most the 5-second budget plus fan-in
overhead); the source's `for` loop is sequential, so in the timing model of
that loop a snapshot in which every probe hangs (latency 1000 s, capped at
the 5-second budget each) takes 8 · 5 = 40 seconds, the sum over all eight
registry entries, exceeding any single probe's 5-second budget. -/
theorem sequential_polling_sums_latencies :
    status_total_time (fun _ => 1000) = 40 ∧
    SERVICES.length * 5 = 40 ∧ ¬ status_total_time (fun _ => 1000) ≤ 5 := by
  decide

/-- C5: the snapshot entry of a registered service is online exactly when its
probe returns HTTP 200, error exactly when it returns any other status code,
and offline when no response is received (timeout, connection failure, or any
other exception); the probe is a GET with a 5-second budget. -/
theorem health_probe_classification
    (net : OutboundRequest → UpstreamOutcome) (name url : String)
    (hmem : (name, url) ∈ SERVICES) :
    (probeRequest url).timeout = 5 ∧ (probeRequest url).method = .get ∧
    (∀ resp, net (probeRequest url) = .ok resp →
      (((status net).lookup name = some ⟨"online", url⟩) ↔
        resp.status_code = 200) ∧
      (((status net).lookup name = some ⟨"error", url⟩) ↔
        resp.status_code ≠ 200)) ∧
    ((net (probeRequest url) = .timeout ∨ net (probeRequest url) = .connectionError ∨
        ∃ m, net (probeRequest url) = .exception m) →
      (status net).lookup name = some ⟨"offline", url⟩) := by
  have key : (status net).lookup name = some (classify net (name, url)) :=
    lookup_map_entry (classify net) SERVICES name url hmem (by decide)
  simp only [classify] at key
  refine ⟨rfl, rfl, fun resp hr => ?_, fun ho => ?_⟩
  · have keyval : (status net).lookup name =
        some ⟨if resp.status_code = 200 then "online" else "error", url⟩ := by
      rw [hr] at key
      exact key
    constructor
    · rw [keyval]
      by_cases h200 : resp.status_code = 200 <;> simp [h200]
    · rw [keyval]
      by_cases h200 : resp.status_code = 200 <;> simp [h200]
  · rcases ho with h | h | ⟨m, h⟩ <;> rw [h] at key <;> exact key

/-- Witness for C5: with every probe answering HTTP 200, the registered
service "nmap" is classified online. -/
theorem health_probe_classification_witness :
    ("nmap", "https://nmap-production.up.railway.app") ∈ SERVICES ∧
    (status (fun _ => .ok ⟨200, "ok", some (Json.str "ok")⟩)).lookup "nmap" =
      some ⟨"online", "https://nmap-production.up.railway.app"⟩ := by
  have h := health_probe_classification
    (fun _ => .ok ⟨200, "ok", some (Json.str "ok")⟩)
    "nmap" "https://nmap-production.up.railway.app" (by decide)
  exact ⟨by decide, ((h.2.2.1 ⟨200, "ok", some (Json.str "ok")⟩ rfl).1).mpr rfl⟩

/-- C8: the documented names are exactly the registry's names (as a multiset);
`GET /services/<name>` for a name absent from the registry returns 404 with
those names as the available list, and for a present name returns that
service's descriptor. -/
theorem service_detail_spec (service : String) :
    (DOCS_services.map Prod.fst).Perm (SERVICES.map Prod.fst) ∧
    (service ∉ SERVICES.map Prod.fst →
      service_detail service = ⟨404, .json (.obj
        [("error", .str ("Service " ++ service ++ " not found")),
         ("available", .arr (DOCS_services.map (fun p => Json.str p.1)))])⟩) ∧
    (service ∈ SERVICES.map Prod.fst →
      ∃ doc, DOCS_services.lookup service = some doc ∧
        service_detail service = ⟨200, .json doc⟩) := by
  have hperm : (DOCS_services.map Prod.fst).Perm (SERVICES.map Prod.fst) := by
    decide
  refine ⟨hperm, fun h => ?_, fun h => ?_⟩
  · have h2 : service ∉ DOCS_services.map Prod.fst := fun hm =>
      h (hperm.mem_iff.mp hm)
    unfold service_detail
    rw [lookup_eq_none_of_not_mem_keys _ _ h2]
  · have h2 : service ∈ DOCS_services.map Prod.fst := hperm.mem_iff.mpr h
    obtain ⟨doc, hdoc⟩ := lookup_isSome_of_mem_keys _ _ h2
    refine ⟨doc, hdoc, ?_⟩
    unfold service_detail
    rw [hdoc]

/-- Witness for C8: the unknown name "unknown-xyz" yields 404 with the
documented names as the available list, and the registered name "nmap"
yields its descriptor. -/
theorem service_detail_spec_witness :
    ("unknown-xyz" ∉ SERVICES.map Prod.fst ∧
      service_detail "unknown-xyz" = ⟨404, .json (.obj
        [("error", .str "Service unknown-xyz not found"),
         ("available", .arr (DOCS_services.map (fun p => Json.str p.1)))])⟩) ∧
    ("nmap" ∈ SERVICES.map Prod.fst ∧
      service_detail "nmap" = ⟨200, .json nmapDoc⟩) := by
  have h1 := (service_detail_spec "unknown-xyz").2.1 (by decide)
  have h2 := (service_detail_spec "nmap").2.2 (by decide)
  obtain ⟨doc, hdoc, hret⟩ := h2
  have hlook : List.lookup "nmap" DOCS_services = some nmapDoc := rfl
  have hd : doc = nmapDoc := (Option.some.inj (hlook.symm.trans hdoc)).symm
  exact ⟨⟨by decide, h1⟩, by decide, hd ▸ hret⟩

/-- C9: when a shared secret is configured, every operation except the
liveness check rejects a missing key with 401 and a mismatching key with 403,
and allows an exact match; with no secret configured every request is
allowed; the liveness check is always allowed. -/
theorem access_gate_spec (secret key : String) (provided : Option String)
    (op : Operation) :
    (gate none provided op = none) ∧
    (op ≠ .livenessOp → gate (some secret) none op = some 401) ∧
    (op ≠ .livenessOp → key ≠ secret → gate (some secret) (some key) op = some 403) ∧
    (gate (some secret) (some secret) op = none) ∧
    (gate (some secret) provided .livenessOp = none) := by
  have hlive2 : op ≠ Operation.livenessOp → isLiveness op = false := by
    intro hne
    cases op <;> first | rfl | exact absurd rfl hne
  refine ⟨?_, fun h => ?_, fun h hk => ?_, ?_, ?_⟩
  · cases op <;> simp [gate, isLiveness, authorize]
  · simp [gate, hlive2 h, authorize]
  · simp [gate, hlive2 h, authorize, hk]
  · cases op <;> simp [gate, isLiveness, authorize]
  · simp [gate, isLiveness]

/-- Witness for C9: with secret "s3cret" configured, a `/call` request with
no key is rejected 401, with key "wrong" rejected 403, with the exact key
allowed; with no secret configured it is allowed; liveness is always
allowed. -/
theorem access_gate_spec_witness :
    gate none none Operation.callOp = none ∧
    gate (some "s3cret") none Operation.callOp = some 401 ∧
    gate (some "s3cret") (some "wrong") Operation.callOp = some 403 ∧
    gate (some "s3cret") (some "s3cret") Operation.callOp = none ∧
    gate (some "s3cret") none Operation.livenessOp = none := by
  have h := access_gate_spec "s3cret" "wrong" none Operation.callOp
  exact ⟨h.1, h.2.1 (by decide), h.2.2.1 (by decide) (by decide),
    h.2.2.2.1, h.2.2.2.2⟩

end Gateway
